import Mathlib

/-!
Verification of the sysist-app booking assistant against its specification.

The development shallowly embeds the decision logic of the three request
handlers of the repository:

* the call-outcome webhook relay (`src/unnamed/part_002`, the booking
  callback route): signature verification, field checks, booking lookup,
  status/result persistence and system-message synthesis;
* the booking-start route (`src/app/api/booking/start/route.ts`):
  validation order, booking insertion and the 30-second bounded call to
  the MCP call-placing server, together with the older route variant in
  `src/unnamed/part_003` (`isValidE164PhoneNumber`);
* the message-send orchestrator (`src/unnamed/part_005`): its polling
  loop, its tool-call dispatch (`handleToolCalls`), and the library
  variant of tool dispatch in `src/lib/openai.ts`.

External effects (HMAC computation, the OpenAI run-status stream, the MCP
server reply, database write failures) are passed in as explicit
parameters, so each handler is a pure function from its inputs and the
database state to a response and a new database state.
-/

namespace Sysist

/-- JSON values as they flow through the modelled handlers (payloads,
tool-call arguments and outputs). Arrays are omitted: no code path in the
modelled handlers constructs or inspects a JSON array. -/
inductive JsonVal where
  | str (s : String)
  | num (n : Int)
  | bool (b : Bool)
  | null
  | obj (fields : List (String × JsonVal))

/-- First-match lookup of a key in a JSON-object association list. Object
literals in the source are written so that later entries override earlier
ones, so they are stored override-first here. -/
def lookupKey (k : String) : List (String × JsonVal) → Option JsonVal
  | [] => none
  | p :: rest => if p.1 = k then some p.2 else lookupKey k rest

/-- JavaScript truthiness of an optional string (`undefined`/`null` and
the empty string are falsy). -/
def jsTruthyStrOpt : Option String → Bool
  | none => false
  | some s => s ≠ ""

/-- JavaScript truthiness of a JSON value found (or not) under a key. -/
def jsTruthyVal : Option JsonVal → Bool
  | none => false
  | some (JsonVal.str s) => s ≠ ""
  | some (JsonVal.num n) => n ≠ 0
  | some (JsonVal.bool b) => b
  | some JsonVal.null => false
  | some (JsonVal.obj _) => true

/-- JavaScript string interpolation of a JSON value (template literals in
the relay interpolate `booking.details` fields). -/
def jsValToString : JsonVal → String
  | JsonVal.str s => s
  | JsonVal.num n => toString n
  | JsonVal.bool b => cond b "true" "false"
  | JsonVal.null => "null"
  | JsonVal.obj _ => "[object Object]"

/-- Interpolation of a possibly-absent JSON value: `undefined` renders as
the string "undefined" in a template literal. -/
def jsValOptToString : Option JsonVal → String
  | none => "undefined"
  | some v => jsValToString v

/-- Interpolation of a possibly-absent string. -/
def jsStrOptToString : Option String → String
  | none => "undefined"
  | some s => s

/-- A row of the `bookings` table. -/
structure BookingRow where
  id : String
  user_id : String
  chat_id : String
  call_id : Option String
  booking_type : String
  status : String
  details : List (String × JsonVal)
  result : List (String × JsonVal)

/-- A row of the `messages` table (the fields written by the handlers). -/
structure MessageRow where
  chat_id : String
  role : String
  content : String
  metadata : List (String × JsonVal)

/-- A row of the `chats` table (the fields read by the handlers). -/
structure ChatRow where
  id : String
  user_id : String
  openai_thread_id : Option String

/-- The persistent store visible to the handlers. -/
structure DbState where
  chats : List ChatRow
  bookings : List BookingRow
  messages : List MessageRow

/-- The parsed body of a booking-outcome webhook notification
(`BookingCallbackRequest` in `src/types/index.ts`; every field may be
absent in the incoming JSON). -/
structure CallbackRequest where
  callId : Option String
  status : Option String
  result : Option (List (String × JsonVal))
  transcript : Option String
  duration : Option Int
  reason : Option String

/-- Deployment configuration of the webhook relay. -/
structure WebhookConfig where
  webhookSecret : Option String

/-- The raw inbound webhook request: the signature header, the raw body
text (input of the HMAC) and its parsed form. -/
structure RelayInput where
  signatureHeader : Option String
  bodyRaw : String
  body : CallbackRequest

/-- Injected failure behaviour of the two database writes the relay
performs, so that the error paths of the handler can be explored. -/
structure DbBehavior where
  updateFails : Bool
  insertFails : Bool

/-- Response categories of the relay (`part_002`). `serverError` is the
HTTP 500 response produced by the catch-all handler around a thrown
error; its body carries `success: false` and the error message. -/
inductive RelayResponse where
  | ok
  | invalidSignature
  | missingCallId
  | notFound
  | serverError
  deriving DecidableEq, Repr

/-- The signature gate of `part_002` lines 10-34: the HMAC-SHA256 check
runs only when `webhookSecret && signature` is truthy, and rejects only
when the header differs from the expected digest. `hmac key body` stands
for the hex HMAC-SHA256 digest. -/
def authRejects (hmac : String → String → String) (cfg : WebhookConfig)
    (input : RelayInput) : Bool :=
  match cfg.webhookSecret, input.signatureHeader with
  | some secret, some sig =>
      secret ≠ "" && sig ≠ "" && sig ≠ hmac secret input.bodyRaw
  | _, _ => false

/-- Booking lookup of `part_002` lines 47-52: `.eq('call_id', callId)`
followed by `.single()`, which succeeds exactly when one row matches. -/
def findBookingByCallId (db : DbState) (cid : String) : Option BookingRow :=
  match db.bookings.filter (fun b => b.call_id = some cid) with
  | [b] => some b
  | _ => none

/-- Status mapping of `part_002` line 63:
`status === 'completed' ? 'completed' : 'failed'`. -/
def mappedStatus (status : Option String) : String :=
  if status = some "completed" then "completed" else "failed"

/-- A singleton association list when the value is present, else empty:
object-literal keys whose value is `undefined` are dropped by the JSON
serialisation of the update payload. -/
def optEntry (k : String) (v : Option JsonVal) : List (String × JsonVal) :=
  match v with
  | some x => [(k, x)]
  | none => []

/-- The literal part of the result payload of `part_002` lines 68-73:
the keys `transcript`, `duration`, `reason` taken from the top level of
the notification. -/
def basePayload (req : CallbackRequest) : List (String × JsonVal) :=
  optEntry "transcript" (req.transcript.map JsonVal.str) ++
  optEntry "duration" (req.duration.map JsonVal.num) ++
  optEntry "reason" (req.reason.map JsonVal.str)

/-- The full result payload written by the relay:
`\x7b transcript, duration, reason, ...result \x7d` — the spread of the
notification result object overrides the three literal keys, so its
entries come first under first-match lookup. -/
def mergedResult (req : CallbackRequest) : List (String × JsonVal) :=
  req.result.getD [] ++ basePayload req

/-- Replacement of status and result on every booking row matching the
id (`.update(...).eq('id', booking.id)`, `part_002` lines 64-75). The
`result` column is replaced wholesale by the new payload. -/
def updateBookingRows (bookings : List BookingRow) (bid : String)
    (st : String) (res : List (String × JsonVal)) : List BookingRow :=
  bookings.map fun r => if r.id = bid then { r with status := st, result := res } else r

/-- The business-name fallback chain of `part_002` line 84:
`booking.details.restaurantName || booking.details.businessName || 'the business'`. -/
def businessNameOf (details : List (String × JsonVal)) : String :=
  if jsTruthyVal (lookupKey "restaurantName" details) then
    jsValOptToString (lookupKey "restaurantName" details)
  else if jsTruthyVal (lookupKey "businessName" details) then
    jsValOptToString (lookupKey "businessName" details)
  else "the business"

/-- Template of the `completed` case (`part_002` lines 87-92). -/
def completedTemplate (req : CallbackRequest) (details : List (String × JsonVal)) : String :=
  "✅ Great news! Your reservation at " ++
  (businessNameOf details ++
   (" is CONFIRMED for " ++
    (jsValOptToString (lookupKey "dateTime" details) ++
     (", party of " ++
      (jsValOptToString (lookupKey "partySize" details) ++
       ("." ++
        (if jsTruthyStrOpt req.transcript then
          "\n\nCall Summary:\n" ++ jsStrOptToString req.transcript
        else "")))))))

/-- Template of the `failed` case (`part_002` lines 94-100). -/
def failedTemplate (req : CallbackRequest) (details : List (String × JsonVal)) : String :=
  "❌ We couldn\x27t complete your booking at " ++
  (businessNameOf details ++
   ("." ++
    ((if jsTruthyStrOpt req.reason then " Reason: " ++ (jsStrOptToString req.reason ++ ".") else "") ++
     " Would you like me to try again or try a different time?")))

/-- Template of the `busy` case (`part_002` line 103). -/
def busyTemplate (details : List (String × JsonVal)) : String :=
  "📵 The line was busy when we tried to call " ++
  (businessNameOf details ++ ". Would you like me to retry?")

/-- Template of the `no-answer` case (`part_002` line 107). -/
def noAnswerTemplate (details : List (String × JsonVal)) : String :=
  "📵 There was no answer when we called " ++
  (businessNameOf details ++ ". They might be closed or very busy. Would you like to try again later?")

/-- Template of the `default` case (`part_002` line 111); an absent
status interpolates as "undefined". -/
def genericTemplate (status : Option String) (details : List (String × JsonVal)) : String :=
  "ℹ️ The call to " ++
  (businessNameOf details ++ (" ended with status: " ++ (jsStrOptToString status ++ ".")))

/-- The `switch (status)` of `part_002` lines 86-112 choosing the
content of the synthesized system message. There is no `voicemail`
case in the source; every unlisted status reaches `default`. -/
def messageContentFor (req : CallbackRequest) (b : BookingRow) : String :=
  match req.status with
  | some "completed" => completedTemplate req b.details
  | some "failed" => failedTemplate req b.details
  | some "busy" => busyTemplate b.details
  | some "no-answer" => noAnswerTemplate b.details
  | _ => genericTemplate req.status b.details

/-- The system message inserted by `part_002` lines 114-126. -/
def systemMessageRow (req : CallbackRequest) (b : BookingRow) : MessageRow :=
  { chat_id := b.chat_id
    role := "system"
    content := messageContentFor req b
    metadata :=
      [("callId", JsonVal.str (req.callId.getD "")), ("bookingId", JsonVal.str b.id)] ++
      optEntry "status" (req.status.map JsonVal.str) }

/-- The body of the relay after the signature gate (`part_002` lines
36-141): callId requirement, booking lookup, status/result update,
message insertion. A failing update or insertion throws, reaching the
catch-all 500; the update happens before the insertion, so an insertion
failure leaves the booking already updated. -/
def processCallback (req : CallbackRequest) (db : DbState) (beh : DbBehavior) :
    RelayResponse × DbState :=
  if jsTruthyStrOpt req.callId = false then (RelayResponse.missingCallId, db)
  else
    match findBookingByCallId db (req.callId.getD "") with
    | none => (RelayResponse.notFound, db)
    | some b =>
      if beh.updateFails then (RelayResponse.serverError, db)
      else
        let db1 : DbState :=
          { db with bookings :=
              updateBookingRows db.bookings b.id (mappedStatus req.status) (mergedResult req) }
        if beh.insertFails then (RelayResponse.serverError, db1)
        else (RelayResponse.ok, { db1 with messages := db1.messages ++ [systemMessageRow req b] })

/-- The booking-outcome webhook handler `POST` of `part_002`. -/
def relayPost (hmac : String → String → String) (cfg : WebhookConfig)
    (input : RelayInput) (db : DbState) (beh : DbBehavior) : RelayResponse × DbState :=
  if authRejects hmac cfg input then (RelayResponse.invalidSignature, db)
  else processCallback input.body db beh

/-! ### Booking-start route (`src/app/api/booking/start/route.ts`) -/

/-- ASCII digit test (`\d` of the phone regex). -/
def isDigitCh (c : Char) : Bool := '0' ≤ c && c ≤ '9'

/-- Nonzero ASCII digit test (`[1-9]` of the phone regex). -/
def isNonZeroDigitCh (c : Char) : Bool := '1' ≤ c && c ≤ '9'

/-- Test of the pattern `^\+[1-9]\d\x7b lo,14 \x7d$`: a leading `+`, a
nonzero first digit, then between `lo` and 14 further digits. Both phone
regexes of the repository have this shape and differ only in `lo`. -/
def phoneShapeTest (lo : Nat) (s : String) : Bool :=
  match s.data with
  | c :: d :: rest =>
      c = '+' && isNonZeroDigitCh d && rest.all isDigitCh &&
      decide (lo ≤ rest.length) && decide (rest.length ≤ 14)
  | _ => false

/-- The phone validation of the live route,
`route.ts` line 122: test of `^\+[1-9]\d\x7b7,14\x7d$` (a leading `+`,
a nonzero first digit, then 7 to 14 further digits — 8 to 15 digits in
total). -/
def phoneRegexRoute (s : String) : Bool :=
  phoneShapeTest 7 s

/-- `isValidE164PhoneNumber` of the older route variant,
`src/unnamed/part_003` lines 179-182: test of `^\+[1-9]\d\x7b1,14\x7d$`
(a leading `+`, a nonzero first digit, then 1 to 14 further digits —
2 to 15 digits in total). This is also the pattern named by the spec. -/
def isValidE164PhoneNumber (s : String) : Bool :=
  phoneShapeTest 1 s

/-- A booking-start request body (`BookingStartRequest` in `route.ts`).
Absent string fields are the empty string (both are falsy); `partySize`
is `none` when absent or not a number. -/
structure StartRequest where
  chatId : String
  userId : String
  bookingType : String
  restaurantName : String
  phoneNumber : String
  dateTime : String
  customerName : String
  partySize : Option Int
  specialRequests : Option String

/-- JavaScript falsiness of the `partySize` field: absent, or the
number 0 (`!partySize` in the required-fields check). -/
def jsFalsyNum : Option Int → Bool
  | none => true
  | some n => n = 0

/-- The reply of the MCP call-placing server once (and if) its HTTP
response arrives (`route.ts` lines 254-287). -/
inductive McpReply where
  | httpError
  | badJson
  | rpcError
  | noCallId
  | callId (cid : String)

/-- Outcome of the `fetch` guarded by the `AbortController`. -/
inductive FetchOutcome where
  | response (rep : McpReply)
  | aborted

/-- The `fetch` of `route.ts` lines 226-252 raced against
`setTimeout(() => controller.abort(), 30000)`: `arrival` is the time in
milliseconds at which the upstream response would arrive (`none` when it
never does). The second component is the wall-clock time spent waiting:
the response time when it beats the timer, the timeout otherwise. -/
def fetchWithTimeout (timeoutMs : Nat) (arrival : Option Nat) (rep : McpReply) :
    FetchOutcome × Nat :=
  match arrival with
  | none => (FetchOutcome.aborted, timeoutMs)
  | some t => if t ≤ timeoutMs then (FetchOutcome.response rep, t) else (FetchOutcome.aborted, timeoutMs)

/-- Environment of one booking-start invocation: the id the database
assigns to the inserted row, injected write failures, the MCP server
configuration and the behaviour of its reply. -/
structure StartEnv where
  newBookingId : String
  bookingInsertFails : Bool
  mcpConfigured : Bool
  arrival : Option Nat
  reply : McpReply

structure StartBehavior where
  updateFails : Bool

/-- Response categories of the booking-start route. All thrown errors
(insert failure, unconfigured or failing MCP server, timeout, missing
callId) reach the catch-all and become HTTP 500 `serverError`. -/
inductive StartResponse where
  | missingFields
  | invalidType
  | invalidPhone
  | invalidParty
  | chatNotFound
  | serverError
  | ok (callId : String) (bookingId : String)
  deriving DecidableEq, Repr

/-- Whether a response is one of the four HTTP 400 validation
rejections issued before any database access. -/
def isValidationReject : StartResponse → Bool
  | StartResponse.missingFields => true
  | StartResponse.invalidType => true
  | StartResponse.invalidPhone => true
  | StartResponse.invalidParty => true
  | _ => false

/-- Chat ownership check of `route.ts` lines 149-166:
`.eq('id', chatId).eq('user_id', userId).single()`. -/
def findChatOwned (db : DbState) (chatId userId : String) : Option ChatRow :=
  match db.chats.filter (fun c => c.id = chatId && c.user_id = userId) with
  | [c] => some c
  | _ => none

/-- The booking row inserted by `route.ts` lines 168-188. -/
def newBookingRow (req : StartRequest) (bid : String) : BookingRow :=
  { id := bid
    user_id := req.userId
    chat_id := req.chatId
    call_id := none
    booking_type := req.bookingType
    status := "initiated"
    details :=
      [("restaurantName", JsonVal.str req.restaurantName),
       ("businessName", JsonVal.str req.restaurantName),
       ("phoneNumber", JsonVal.str req.phoneNumber),
       ("dateTime", JsonVal.str req.dateTime),
       ("partySize", JsonVal.num (req.partySize.getD 0)),
       ("customerName", JsonVal.str req.customerName),
       ("specialRequests", JsonVal.str (req.specialRequests.getD ""))]
    result := [] }

/-- The `initiated → calling` update of `route.ts` lines 291-298. -/
def attachCallId (bookings : List BookingRow) (bid cid : String) : List BookingRow :=
  bookings.map fun r =>
    if r.id = bid then { r with call_id := some cid, status := "calling" } else r

/-- The continuation of the booking-start handler after the guarded
`fetch` returns or is aborted (`route.ts` lines 240-317), applied to the
state `db1` in which the `initiated` booking row already exists. An
aborted or failed call, a JSON-RPC error, a malformed reply and a
missing call id all throw, reaching the catch-all 500; on a call id, the
`initiated → calling` update runs, and if it fails the handler still
reports success (lines 300-305). -/
def mcpContinue (env : StartEnv) (beh : StartBehavior) (db1 : DbState) :
    FetchOutcome × Nat → StartResponse × DbState × Nat
  | (FetchOutcome.aborted, w) => (StartResponse.serverError, db1, w)
  | (FetchOutcome.response rep, w) =>
    match rep with
    | McpReply.httpError => (StartResponse.serverError, db1, w)
    | McpReply.badJson => (StartResponse.serverError, db1, w)
    | McpReply.rpcError => (StartResponse.serverError, db1, w)
    | McpReply.noCallId => (StartResponse.serverError, db1, w)
    | McpReply.callId cid =>
      if cid = "" then (StartResponse.serverError, db1, w)
      else if beh.updateFails then
        (StartResponse.ok cid env.newBookingId, db1, w)
      else
        (StartResponse.ok cid env.newBookingId,
         { db1 with bookings := attachCallId db1.bookings env.newBookingId cid }, w)

/-- The booking-start handler `POST` of `route.ts`. Returns the
response, the final database state, and the wall-clock milliseconds
spent waiting on the MCP server. -/
def bookingStartPost (req : StartRequest) (db : DbState) (env : StartEnv)
    (beh : StartBehavior) : StartResponse × DbState × Nat :=
  if req.chatId = "" ∨ req.userId = "" ∨ req.bookingType = "" ∨ req.restaurantName = "" ∨
      req.phoneNumber = "" ∨ req.dateTime = "" ∨ jsFalsyNum req.partySize ∨
      req.customerName = "" then
    (StartResponse.missingFields, db, 0)
  else if ¬ (req.bookingType = "restaurant" ∨ req.bookingType = "hotel" ∨ req.bookingType = "taxi") then
    (StartResponse.invalidType, db, 0)
  else if phoneRegexRoute req.phoneNumber = false then
    (StartResponse.invalidPhone, db, 0)
  else
    match req.partySize with
    | none => (StartResponse.invalidParty, db, 0)
    | some n =>
      if n < 1 ∨ 100 < n then (StartResponse.invalidParty, db, 0)
      else
        match findChatOwned db req.chatId req.userId with
        | none => (StartResponse.chatNotFound, db, 0)
        | some _ =>
          if env.bookingInsertFails then (StartResponse.serverError, db, 0)
          else
            let db1 : DbState :=
              { db with bookings := db.bookings ++ [newBookingRow req env.newBookingId] }
            if env.mcpConfigured = false then (StartResponse.serverError, db1, 0)
            else
              mcpContinue env beh db1 (fetchWithTimeout 30000 env.arrival env.reply)

/-! ### Message-send orchestrator (`src/unnamed/part_005`) -/

/-- Run statuses of the Conversation Service observed by the polling
loops. -/
inductive RunStatus where
  | queued
  | inProgress
  | requiresAction
  | completed
  | failed
  | expired
  | cancelled
  deriving DecidableEq, Repr

/-- The continuation condition of the polling loops:
`status === 'queued' || status === 'in_progress'`. -/
def isNonTerminal : RunStatus → Bool
  | RunStatus.queued => true
  | RunStatus.inProgress => true
  | _ => false

/-- The polling loop of `part_005` lines 97-106 (re-entered with
`attempts = 0` after tool submission at lines 127-136): sleeps one
second, retrieves the run status (`stream n` is the status seen by the
`n`-th retrieval), increments `attempts`, and stops on a terminal status
or when `attempts` reaches `maxAttempts = 60`. Returns the final status
and attempt count; each attempt costs one second of waiting. -/
def pollLoop (stream : Nat → RunStatus) (st : RunStatus) (attempts : Nat) :
    RunStatus × Nat :=
  if h : isNonTerminal st = true ∧ attempts < 60 then
    pollLoop stream (stream attempts) (attempts + 1)
  else (st, attempts)
termination_by 60 - attempts
decreasing_by omega

/-- The wall-clock-bounded polling loop of `src/lib/openai.ts` lines
102-115: before each one-second sleep it throws once the elapsed time
exceeds `maxWaitMs` (an `Except.error` models the thrown timeout).
Returns the final status and elapsed milliseconds. -/
def clockPoll (stream : Nat → RunStatus) (maxWaitMs : Nat) (st : RunStatus)
    (elapsedMs : Nat) : Except String (RunStatus × Nat) :=
  if isNonTerminal st = true then
    if h : maxWaitMs < elapsedMs then Except.error "Assistant run timed out"
    else clockPoll stream maxWaitMs (stream (elapsedMs / 1000)) (elapsedMs + 1000)
  else Except.ok (st, elapsedMs)
termination_by maxWaitMs + 1000 - elapsedMs
decreasing_by omega

/-! ### Tool-call dispatch -/

/-- A tool call requested by the assistant: an id, a function name, and
the raw JSON text of its arguments. -/
structure ToolCall where
  id : String
  name : String
  argumentsRaw : String
  deriving DecidableEq, Repr

/-- A tool output submitted back to the run (the source stringifies the
output object; it is kept structured here). -/
structure ToolOutput where
  tool_call_id : String
  output : JsonVal

/-- The `switch (functionName)` of `part_005` lines 228-258, inside its
`try`: the two recognized handlers (whose effects are passed in as
functions that may throw), the unknown-name default producing an
error-shaped output, and the `catch` turning a thrown handler error into
an error-shaped output for that call. -/
def dispatchTool (runStart : JsonVal → String → String → Except String JsonVal)
    (runStatus : JsonVal → String → Except String JsonVal)
    (chatId userId : String) (name : String) (args : JsonVal) : JsonVal :=
  match name with
  | "start_booking_call" =>
    match runStart args chatId userId with
    | Except.ok v => v
    | Except.error e => JsonVal.obj [("error", JsonVal.str e)]
  | "get_booking_status" =>
    match runStatus args chatId with
    | Except.ok v => v
    | Except.error e => JsonVal.obj [("error", JsonVal.str e)]
  | _ => JsonVal.obj [("error", JsonVal.str ("Unknown function: " ++ name))]

/-- `handleToolCalls` of the orchestrator (`part_005` lines 215-262).
`JSON.parse(toolCall.function.arguments)` sits OUTSIDE the `try` block
(line 226), so a parse failure (`parse` returning `none`) throws out of
the whole loop: the function aborts with an error and no output list is
produced for any call. -/
def handleToolCallsRoute (parse : String → Option JsonVal)
    (runStart : JsonVal → String → String → Except String JsonVal)
    (runStatus : JsonVal → String → Except String JsonVal)
    (chatId userId : String) : List ToolCall → Except String (List ToolOutput)
  | [] => Except.ok []
  | tc :: rest =>
    match parse tc.argumentsRaw with
    | none => Except.error "Unexpected token in JSON"
    | some args =>
      match handleToolCallsRoute parse runStart runStatus chatId userId rest with
      | Except.error e => Except.error e
      | Except.ok outs =>
        Except.ok ({ tool_call_id := tc.id,
                     output := dispatchTool runStart runStatus chatId userId tc.name args } :: outs)

/-- `handleToolCalls` of the library (`src/lib/openai.ts` lines
244-289): the parse sits inside its own `try`, so a parse failure yields
an error-shaped output for that call and the loop continues; a handler
error likewise yields a per-call error-shaped output. -/
def handleToolCallsLib (parse : String → Option JsonVal)
    (handler : String → JsonVal → Except String JsonVal) :
    List ToolCall → List ToolOutput
  | [] => []
  | tc :: rest =>
    let out : JsonVal :=
      match parse tc.argumentsRaw with
      | none => JsonVal.obj [("error", JsonVal.str "Failed to parse function arguments")]
      | some args =>
        match handler tc.name args with
        | Except.ok v => v
        | Except.error e => JsonVal.obj [("error", JsonVal.str e)]
    { tool_call_id := tc.id, output := out } :: handleToolCallsLib parse handler rest

/-! ### Message-send database operations (`part_005` lines 9-84) -/

/-- A send-message request body (`SendMessageRequest`). -/
structure SendRequest where
  chatId : String
  userId : String
  message : String

/-- Database operations of the send-message handler before the run is
started. -/
inductive SendDbOp where
  | insertUserMessage (chat_id : String) (role : String) (content : String)
  | selectChatThread (chat_id : String)
  | updateChatThread (chat_id : String) (thread_id : String)
  deriving DecidableEq, Repr

/-- The database operations performed by `part_005` lines 9-84, up to
(and not including) tool dispatch: field validation, the user-message
insert keyed only by `chat_id`, the chat lookup keyed only by the chat
id, and the thread-id write when the chat has none. `none` when the
handler rejects before touching the database (missing fields, or
`OPENAI_ASSISTANT_ID` unconfigured). -/
def sendMessageDbOps (assistantConfigured : Bool) (req : SendRequest)
    (existingThread : Option String) (newThreadId : String) : Option (List SendDbOp) :=
  if req.chatId = "" ∨ req.userId = "" ∨ req.message = "" then none
  else if assistantConfigured = false then none
  else some
    ([SendDbOp.insertUserMessage req.chatId "user" req.message,
      SendDbOp.selectChatThread req.chatId] ++
     (if jsTruthyStrOpt existingThread then []
      else [SendDbOp.updateChatThread req.chatId newThreadId]))

/-- The arguments the orchestrator hands to its tool-call handlers
(`part_005` line 115): this is the only place `userId` flows after
validation. -/
def toolDispatchContext (req : SendRequest) : String × String :=
  (req.chatId, req.userId)

/-! ### Character access, used to compare rendered templates -/

/-- Character of a string at a (character) index. -/
def strCharAt (s : String) (i : Nat) : Option Char :=
  s.data[i]?

/-! ### Concrete fixtures used by counterexamples and witnesses -/

/-- A trivial stand-in for the HMAC-SHA256 digest function. -/
def hmacZero : String → String → String := fun _ _ => ""

/-- Relay deployment with no `WEBHOOK_SECRET` configured. -/
def cfgNoSecret : WebhookConfig := { webhookSecret := none }

/-- An inbound webhook request carrying no signature header. -/
def inputFor (req : CallbackRequest) : RelayInput :=
  { signatureHeader := none, bodyRaw := "", body := req }

def chatRow₁ : ChatRow := { id := "c1", user_id := "u1", openai_thread_id := none }

/-- A booking in status `calling`, awaiting its outcome notification. -/
def bookingRow₁ : BookingRow :=
  { id := "b1"
    user_id := "u1"
    chat_id := "c1"
    call_id := some "call_1"
    booking_type := "restaurant"
    status := "calling"
    details :=
      [("restaurantName", JsonVal.str "Mario"),
       ("businessName", JsonVal.str "Mario"),
       ("phoneNumber", JsonVal.str "+12025550100"),
       ("dateTime", JsonVal.str "2025-01-15 19:00"),
       ("partySize", JsonVal.num 4),
       ("customerName", JsonVal.str "Dana"),
       ("specialRequests", JsonVal.str "")]
    result := [] }

def db₁ : DbState := { chats := [chatRow₁], bookings := [bookingRow₁], messages := [] }

def dbEmpty : DbState := { chats := [], bookings := [], messages := [] }

/-- A completed-outcome notification for `call_1`. -/
def reqCompleted : CallbackRequest :=
  { callId := some "call_1"
    status := some "completed"
    result := some [("confirmation", JsonVal.str "ABC123")]
    transcript := some "They confirmed the table."
    duration := some 42
    reason := none }

/-- A notification whose `status` field is absent. -/
def reqNoStatus : CallbackRequest :=
  { callId := some "call_1", status := none, result := none,
    transcript := none, duration := none, reason := none }

/-- A notification with the outcome status `voicemail`. -/
def reqVoicemail : CallbackRequest :=
  { callId := some "call_1", status := some "voicemail", result := none,
    transcript := some "Voicemail greeting", duration := none, reason := none }

/-- A notification whose `callId` field is absent. -/
def reqNoCallId : CallbackRequest :=
  { callId := none, status := some "completed", result := none,
    transcript := none, duration := none, reason := none }

def behOk : DbBehavior := { updateFails := false, insertFails := false }

def behInsertFail : DbBehavior := { updateFails := false, insertFails := true }

/-- A booking-start request whose phone number "+123456" matches the
spec pattern `^\+[1-9]\d\x7b1,14\x7d$` but has only 7 digits in total. -/
def reqPhone6 : StartRequest :=
  { chatId := "c1"
    userId := "u1"
    bookingType := "restaurant"
    restaurantName := "Mario"
    phoneNumber := "+123456"
    dateTime := "2025-01-15 19:00"
    customerName := "Dana"
    partySize := some 4
    specialRequests := none }

/-- A healthy environment: MCP configured, replying after one second
with a call id. -/
def envOk : StartEnv :=
  { newBookingId := "b2"
    bookingInsertFails := false
    mcpConfigured := true
    arrival := some 1000
    reply := McpReply.callId "call_2" }

def startBehOk : StartBehavior := { updateFails := false }

/-- A JSON parser stub accepting only the literal text of an empty
object. -/
def parseStub : String → Option JsonVal :=
  fun s => if s = "\x7b\x7d" then some (JsonVal.obj []) else none

def runStartStub : JsonVal → String → String → Except String JsonVal :=
  fun _ _ _ => Except.ok (JsonVal.obj [("success", JsonVal.bool true)])

def runStatusStub : JsonVal → String → Except String JsonVal :=
  fun _ _ => Except.ok JsonVal.null

/-- A batch whose first call has malformed JSON arguments and whose
second call is well-formed. -/
def badBatch : List ToolCall :=
  [{ id := "call_a", name := "start_booking_call", argumentsRaw := "oops" },
   { id := "call_b", name := "get_booking_status", argumentsRaw := "\x7b\x7d" }]

/-- The well-formed second call of `badBatch`, alone. -/
def goodBatch : List ToolCall :=
  [{ id := "call_b", name := "get_booking_status", argumentsRaw := "\x7b\x7d" }]

/-- A run-status stream that is never terminal. -/
def streamQueued : Nat → RunStatus := fun _ => RunStatus.queued

/-! ## Helper lemmas -/

theorem relayPost_of_authRejects_false (hmac : String → String → String)
    (cfg : WebhookConfig) (input : RelayInput) (db : DbState) (beh : DbBehavior)
    (h : authRejects hmac cfg input = false) :
    relayPost hmac cfg input db beh = processCallback input.body db beh := by
  simp [relayPost, h]

theorem processCallback_fst_ne_invalidSignature (req : CallbackRequest)
    (db : DbState) (beh : DbBehavior) :
    (processCallback req db beh).1 ≠ RelayResponse.invalidSignature := by
  unfold processCallback
  split
  · simp
  · split
    · simp
    · split
      · simp
      · split <;> simp

theorem processCallback_fst_eq_missing_iff (req : CallbackRequest)
    (db : DbState) (beh : DbBehavior) :
    (processCallback req db beh).1 = RelayResponse.missingCallId ↔
      jsTruthyStrOpt req.callId = false := by
  unfold processCallback
  split
  · next h => simp [h]
  · next h =>
    have h' : ¬ jsTruthyStrOpt req.callId = false := h
    split
    · simp [h']
    · split
      · simp [h']
      · split <;> simp [h']

theorem authRejects_of_secret_falsy (hmac : String → String → String)
    (cfg : WebhookConfig) (input : RelayInput)
    (h : jsTruthyStrOpt cfg.webhookSecret = false) :
    authRejects hmac cfg input = false := by
  cases hc : cfg.webhookSecret <;> cases hs : input.signatureHeader <;>
    simp_all [authRejects, jsTruthyStrOpt]

theorem authRejects_of_header_none (hmac : String → String → String)
    (cfg : WebhookConfig) (input : RelayInput)
    (h : input.signatureHeader = none) :
    authRejects hmac cfg input = false := by
  cases hc : cfg.webhookSecret <;> simp_all [authRejects]

theorem strCharAt_append_left (s t : String) (i : Nat) (h : i < s.data.length) :
    strCharAt (s ++ t) i = strCharAt s i := by
  unfold strCharAt
  rw [String.data_append]
  exact List.getElem?_append_left h

theorem ne_of_strCharAt_ne (a b : String) (i : Nat)
    (h : strCharAt a i ≠ strCharAt b i) : a ≠ b :=
  fun e => h (by rw [e])

theorem lookupKey_append_of_some (k : String) (l₁ l₂ : List (String × JsonVal))
    (v : JsonVal) (h : lookupKey k l₁ = some v) :
    lookupKey k (l₁ ++ l₂) = some v := by
  induction l₁ with
  | nil => simp [lookupKey] at h
  | cons p rest ih =>
    by_cases hp : p.1 = k
    · simp [lookupKey, hp] at h ⊢; exact h
    · simp [lookupKey, hp] at h ⊢; exact ih h

theorem lookupKey_append_of_none (k : String) (l₁ l₂ : List (String × JsonVal))
    (h : lookupKey k l₁ = none) :
    lookupKey k (l₁ ++ l₂) = lookupKey k l₂ := by
  induction l₁ with
  | nil => simp [lookupKey]
  | cons p rest ih =>
    by_cases hp : p.1 = k
    · simp [lookupKey, hp] at h
    · simp [lookupKey, hp] at h ⊢; exact ih h

theorem handleToolCallsLib_eq_map (parse : String → Option JsonVal)
    (handler : String → JsonVal → Except String JsonVal) (calls : List ToolCall) :
    handleToolCallsLib parse handler calls = calls.map fun tc =>
      { tool_call_id := tc.id,
        output :=
          match parse tc.argumentsRaw with
          | none => JsonVal.obj [("error", JsonVal.str "Failed to parse function arguments")]
          | some args =>
            match handler tc.name args with
            | Except.ok v => v
            | Except.error e => JsonVal.obj [("error", JsonVal.str e)] } := by
  induction calls with
  | nil => rfl
  | cons tc rest ih => simp [handleToolCallsLib, ih]

theorem phoneShapeTest_mono (lo₁ lo₂ : Nat) (s : String) (hlo : lo₁ ≤ lo₂)
    (h : phoneShapeTest lo₂ s = true) : phoneShapeTest lo₁ s = true := by
  unfold phoneShapeTest at h ⊢
  rcases hd : s.data with _ | ⟨c, _ | ⟨d, rest⟩⟩ <;> rw [hd] at h <;> simp_all
  omega

theorem phoneRegexRoute_imp_e164 (s : String) (h : phoneRegexRoute s = true) :
    isValidE164PhoneNumber s = true :=
  phoneShapeTest_mono 1 7 s (by omega) h

theorem pollLoop_le_aux (stream : Nat → RunStatus) (fuel : Nat) :
    ∀ (st : RunStatus) (a : Nat), 60 - a ≤ fuel →
      (pollLoop stream st a).2 ≤ max a 60 := by
  induction fuel with
  | zero =>
    intro st a h
    rw [pollLoop, dif_neg]
    · exact Nat.le_max_left _ _
    · rintro ⟨_, hlt⟩
      omega
  | succ k ih =>
    intro st a h
    rw [pollLoop]
    by_cases hc : isNonTerminal st = true ∧ a < 60
    · rw [dif_pos hc]
      have hrec := ih (stream a) (a + 1) (by omega)
      have hmax : max (a + 1) 60 = 60 := Nat.max_eq_right (by omega)
      rw [hmax] at hrec
      exact le_trans hrec (Nat.le_max_right _ _)
    · rw [dif_neg hc]
      exact Nat.le_max_left _ _

theorem clockPoll_ok_le_aux (stream : Nat → RunStatus) (m : Nat) (fuel : Nat) :
    ∀ (st : RunStatus) (e : Nat), m + 1000 - e ≤ fuel →
      ∀ r, clockPoll stream m st e = Except.ok r → r.2 ≤ max e (m + 1000) := by
  induction fuel with
  | zero =>
    intro st e h r heq
    rw [clockPoll] at heq
    by_cases hnt : isNonTerminal st = true
    · rw [if_pos hnt, dif_pos (by omega : m < e)] at heq
      cases heq
    · rw [if_neg hnt] at heq
      cases heq
      exact Nat.le_max_left _ _
  | succ k ih =>
    intro st e h r heq
    rw [clockPoll] at heq
    by_cases hnt : isNonTerminal st = true
    · rw [if_pos hnt] at heq
      by_cases hto : m < e
      · rw [dif_pos hto] at heq
        cases heq
      · rw [dif_neg hto] at heq
        have hrec := ih (stream (e / 1000)) (e + 1000) (by omega) r heq
        have hmax : max (e + 1000) (m + 1000) = m + 1000 := Nat.max_eq_right (by omega)
        rw [hmax] at hrec
        exact le_trans hrec (Nat.le_max_right _ _)
    · rw [if_neg hnt] at heq
      cases heq
      exact Nat.le_max_left _ _

theorem clockPoll_timeout_aux (stream : Nat → RunStatus) (m : Nat)
    (hstream : ∀ n, isNonTerminal (stream n) = true) (fuel : Nat) :
    ∀ (st : RunStatus) (e : Nat), m + 1000 - e ≤ fuel →
      isNonTerminal st = true →
      clockPoll stream m st e = Except.error "Assistant run timed out" := by
  induction fuel with
  | zero =>
    intro st e h hnt
    rw [clockPoll, if_pos hnt, dif_pos (by omega : m < e)]
  | succ k ih =>
    intro st e h hnt
    rw [clockPoll, if_pos hnt]
    by_cases hto : m < e
    · rw [dif_pos hto]
    · rw [dif_neg hto]
      exact ih (stream (e / 1000)) (e + 1000) (by omega) (hstream _)

theorem fetch_wait_le (t : Nat) (arrival : Option Nat) (rep : McpReply) :
    (fetchWithTimeout t arrival rep).2 ≤ t := by
  cases arrival with
  | none => simp [fetchWithTimeout]
  | some a =>
    by_cases h : a ≤ t <;> simp [fetchWithTimeout, h]

theorem mcpContinue_wait (env : StartEnv) (beh : StartBehavior) (db1 : DbState)
    (p : FetchOutcome × Nat) : (mcpContinue env beh db1 p).2.2 = p.2 := by
  rcases p with ⟨fo, w⟩
  cases fo with
  | aborted => rfl
  | response rep =>
    cases rep with
    | httpError => rfl
    | badJson => rfl
    | rpcError => rfl
    | noCallId => rfl
    | callId cid =>
      by_cases hc : cid = "" <;> by_cases hb : beh.updateFails <;>
        simp [mcpContinue, hc, hb]

theorem mcpContinue_fst_ne_invalidPhone (env : StartEnv) (beh : StartBehavior)
    (db1 : DbState) (p : FetchOutcome × Nat) :
    (mcpContinue env beh db1 p).1 ≠ StartResponse.invalidPhone := by
  rcases p with ⟨fo, w⟩
  cases fo with
  | aborted => simp [mcpContinue]
  | response rep =>
    cases rep with
    | httpError => simp [mcpContinue]
    | badJson => simp [mcpContinue]
    | rpcError => simp [mcpContinue]
    | noCallId => simp [mcpContinue]
    | callId cid =>
      by_cases hc : cid = "" <;> by_cases hb : beh.updateFails <;>
        simp [mcpContinue, hc, hb]

theorem bookingStart_wait_le (req : StartRequest) (db : DbState) (env : StartEnv)
    (beh : StartBehavior) : (bookingStartPost req db env beh).2.2 ≤ 30000 := by
  unfold bookingStartPost
  repeat' split
  all_goals first
    | exact Nat.zero_le _
    | (rw [mcpContinue_wait]; exact fetch_wait_le _ _ _)

/-! ## Claim theorems -/

/-- C1 (counterexample): with `WEBHOOK_SECRET` unconfigured and no
signature header, the relay fully processes a booking-outcome
notification — it returns success and inserts the system message —
instead of rejecting the request with an authentication error (401). -/
theorem webhook_unconfigured_secret_is_processed :
    (relayPost hmacZero cfgNoSecret (inputFor reqCompleted) db₁ behOk).1 = RelayResponse.ok ∧
    (relayPost hmacZero cfgNoSecret (inputFor reqCompleted) db₁ behOk).1 ≠ RelayResponse.invalidSignature ∧
    (relayPost hmacZero cfgNoSecret (inputFor reqCompleted) db₁ behOk).2.messages.length =
      db₁.messages.length + 1 :=
  ⟨rfl, by decide, rfl⟩

/-- C1 (amended): the relay answers 401 exactly when a webhook secret is
configured, a signature header is present, and the header differs from
the HMAC-SHA256 digest of the raw body; when the secret is unconfigured
(or the header is absent) the notification is processed with no
authentication check at all. -/
theorem webhook_auth_rejection_characterization :
    ∀ (hmac : String → String → String) (cfg : WebhookConfig) (input : RelayInput)
      (db : DbState) (beh : DbBehavior),
      ((relayPost hmac cfg input db beh).1 = RelayResponse.invalidSignature ↔
        authRejects hmac cfg input = true) ∧
      (jsTruthyStrOpt cfg.webhookSecret = false →
        relayPost hmac cfg input db beh = processCallback input.body db beh) ∧
      (input.signatureHeader = none →
        relayPost hmac cfg input db beh = processCallback input.body db beh) := by
  intro hmac cfg input db beh
  refine ⟨⟨?_, ?_⟩, ?_, ?_⟩
  · intro h
    by_contra hA
    have hA' : authRejects hmac cfg input = false := by
      revert hA; cases authRejects hmac cfg input <;> simp
    rw [relayPost_of_authRejects_false _ _ _ _ _ hA'] at h
    exact processCallback_fst_ne_invalidSignature _ _ _ h
  · intro h
    simp [relayPost, h]
  · intro h
    exact relayPost_of_authRejects_false _ _ _ _ _ (authRejects_of_secret_falsy _ _ _ h)
  · intro h
    exact relayPost_of_authRejects_false _ _ _ _ _ (authRejects_of_header_none _ _ _ h)

/-- C1 (witness for the amended theorem). -/
theorem webhook_auth_rejection_characterization_witness :
    relayPost hmacZero cfgNoSecret (inputFor reqCompleted) db₁ behOk =
      processCallback reqCompleted db₁ behOk :=
  (webhook_auth_rejection_characterization hmacZero cfgNoSecret
    (inputFor reqCompleted) db₁ behOk).2.1 rfl

/-- C9: an authenticated notification (the signature gate does not
reject) whose callId is present but matches no booking makes the relay
answer not-found with the database state unchanged — no booking or
message row is written. -/
theorem relay_unknown_callId_no_writes :
    ∀ (hmac : String → String → String) (cfg : WebhookConfig) (input : RelayInput)
      (db : DbState) (beh : DbBehavior),
      authRejects hmac cfg input = false →
      jsTruthyStrOpt input.body.callId = true →
      findBookingByCallId db (input.body.callId.getD "") = none →
      relayPost hmac cfg input db beh = (RelayResponse.notFound, db) := by
  intro hmac cfg input db beh hA hC hF
  rw [relayPost_of_authRejects_false _ _ _ _ _ hA]
  simp [processCallback, hC, hF]

/-- C9 (witness). -/
theorem relay_unknown_callId_no_writes_witness :
    relayPost hmacZero cfgNoSecret (inputFor reqCompleted) dbEmpty behOk =
      (RelayResponse.notFound, dbEmpty) :=
  relay_unknown_callId_no_writes hmacZero cfgNoSecret (inputFor reqCompleted)
    dbEmpty behOk rfl (by decide) rfl

/-- C6 (counterexample): a notification whose `status` field is absent
is not rejected with a missing-fields error: the relay processes it to
completion (the synthesized message reads "status: undefined"). -/
theorem missing_status_not_rejected :
    (relayPost hmacZero cfgNoSecret (inputFor reqNoStatus) db₁ behOk).1 = RelayResponse.ok ∧
    (relayPost hmacZero cfgNoSecret (inputFor reqNoStatus) db₁ behOk).1 ≠ RelayResponse.missingCallId ∧
    (relayPost hmacZero cfgNoSecret (inputFor reqNoStatus) db₁ behOk).2.messages.map MessageRow.content =
      ["ℹ️ The call to Mario ended with status: undefined."] :=
  ⟨rfl, by decide, rfl⟩

/-- C6 (amended): after the signature gate, the only field the relay
requires is the call identifier: it answers 400 missing-fields exactly
when `callId` is falsy, and then leaves the database unchanged; the
outcome status is not required. -/
theorem relay_requires_only_callId :
    ∀ (hmac : String → String → String) (cfg : WebhookConfig) (input : RelayInput)
      (db : DbState) (beh : DbBehavior),
      authRejects hmac cfg input = false →
      (((relayPost hmac cfg input db beh).1 = RelayResponse.missingCallId) ↔
        jsTruthyStrOpt input.body.callId = false) ∧
      (jsTruthyStrOpt input.body.callId = false →
        relayPost hmac cfg input db beh = (RelayResponse.missingCallId, db)) := by
  intro hmac cfg input db beh hA
  rw [relayPost_of_authRejects_false _ _ _ _ _ hA]
  refine ⟨processCallback_fst_eq_missing_iff _ _ _, ?_⟩
  intro h
  simp [processCallback, h]

/-- C6 (witness for the amended theorem). -/
theorem relay_requires_only_callId_witness :
    relayPost hmacZero cfgNoSecret (inputFor reqNoCallId) db₁ behOk =
      (RelayResponse.missingCallId, db₁) :=
  (relay_requires_only_callId hmacZero cfgNoSecret (inputFor reqNoCallId)
    db₁ behOk rfl).2 rfl

/-- C3 (counterexample): when the system-message insertion fails after a
successful booking update, the relay returns the 500 error response
(`success: false`), not an overall success: the booking row is updated
but no message row is inserted. -/
theorem relay_insert_failure_returns_error :
    (relayPost hmacZero cfgNoSecret (inputFor reqCompleted) db₁ behInsertFail).1 = RelayResponse.serverError ∧
    (relayPost hmacZero cfgNoSecret (inputFor reqCompleted) db₁ behInsertFail).1 ≠ RelayResponse.ok ∧
    (relayPost hmacZero cfgNoSecret (inputFor reqCompleted) db₁ behInsertFail).2.messages = db₁.messages ∧
    (relayPost hmacZero cfgNoSecret (inputFor reqCompleted) db₁ behInsertFail).2.bookings =
      updateBookingRows db₁.bookings "b1" "completed" (mergedResult reqCompleted) :=
  ⟨rfl, by decide, rfl, rfl⟩

/-- C3 (amended): if the Message insertion fails after the Booking
update succeeded, the relay logs the error and reports failure — it
throws, reaching the catch-all 500 response — while the booking keeps
its updated terminal status and result and no message row is written. -/
theorem relay_insert_failure_reports_failure :
    ∀ (hmac : String → String → String) (cfg : WebhookConfig) (input : RelayInput)
      (db : DbState) (beh : DbBehavior) (b : BookingRow),
      authRejects hmac cfg input = false →
      jsTruthyStrOpt input.body.callId = true →
      findBookingByCallId db (input.body.callId.getD "") = some b →
      beh.updateFails = false →
      beh.insertFails = true →
      (relayPost hmac cfg input db beh).1 = RelayResponse.serverError ∧
      (relayPost hmac cfg input db beh).2.messages = db.messages ∧
      (relayPost hmac cfg input db beh).2.bookings =
        updateBookingRows db.bookings b.id (mappedStatus input.body.status) (mergedResult input.body) := by
  intro hmac cfg input db beh b hA hC hF hU hI
  rw [relayPost_of_authRejects_false _ _ _ _ _ hA]
  simp [processCallback, hC, hF, hU, hI]

/-- C2: for an authenticated notification matching a booking, with both
writes succeeding, the relay reports success and replaces the booking's
status and result: the status becomes `completed` when the notification
status is `completed` and `failed` for any other (or absent) status, and
the persisted result payload is the merge of the notification's
transcript, duration and reason with its result object — every key of
the result object keeps the result object's value, and each of the three
literal keys survives whenever the result object does not overwrite
it. -/
theorem relay_persists_status_and_merged_result :
    ∀ (hmac : String → String → String) (cfg : WebhookConfig) (input : RelayInput)
      (db : DbState) (beh : DbBehavior) (b : BookingRow),
      authRejects hmac cfg input = false →
      jsTruthyStrOpt input.body.callId = true →
      findBookingByCallId db (input.body.callId.getD "") = some b →
      beh.updateFails = false →
      beh.insertFails = false →
      (relayPost hmac cfg input db beh).1 = RelayResponse.ok ∧
      (relayPost hmac cfg input db beh).2.bookings =
        updateBookingRows db.bookings b.id (mappedStatus input.body.status) (mergedResult input.body) ∧
      (input.body.status = some "completed" → mappedStatus input.body.status = "completed") ∧
      (input.body.status ≠ some "completed" → mappedStatus input.body.status = "failed") ∧
      (∀ (k : String) (v : JsonVal), lookupKey k (input.body.result.getD []) = some v →
        lookupKey k (mergedResult input.body) = some v) ∧
      (∀ t, input.body.transcript = some t →
        lookupKey "transcript" (input.body.result.getD []) = none →
        lookupKey "transcript" (mergedResult input.body) = some (JsonVal.str t)) ∧
      (∀ d, input.body.duration = some d →
        lookupKey "duration" (input.body.result.getD []) = none →
        lookupKey "duration" (mergedResult input.body) = some (JsonVal.num d)) ∧
      (∀ r, input.body.reason = some r →
        lookupKey "reason" (input.body.result.getD []) = none →
        lookupKey "reason" (mergedResult input.body) = some (JsonVal.str r)) := by
  intro hmac cfg input db beh b hA hC hF hU hI
  rw [relayPost_of_authRejects_false _ _ _ _ _ hA]
  refine ⟨?_, ?_, ?_, ?_, ?_, ?_, ?_, ?_⟩
  · simp [processCallback, hC, hF, hU, hI]
  · simp [processCallback, hC, hF, hU, hI]
  · intro h; simp [mappedStatus, h]
  · intro h; simp [mappedStatus, h]
  · intro k v h
    exact lookupKey_append_of_some _ _ _ _ h
  · intro t ht hn
    rw [mergedResult, lookupKey_append_of_none _ _ _ hn]
    simp [basePayload, optEntry, ht, lookupKey]
  · intro d hd hn
    rw [mergedResult, lookupKey_append_of_none _ _ _ hn]
    cases htr : input.body.transcript <;>
      simp [basePayload, optEntry, hd, htr, lookupKey]
  · intro r hr hn
    rw [mergedResult, lookupKey_append_of_none _ _ _ hn]
    cases htr : input.body.transcript <;> cases hd : input.body.duration <;>
      simp [basePayload, optEntry, hr, htr, hd, lookupKey]

/-- C2 (witness). -/
theorem relay_persists_status_and_merged_result_witness :
    (relayPost hmacZero cfgNoSecret (inputFor reqCompleted) db₁ behOk).1 = RelayResponse.ok ∧
    (relayPost hmacZero cfgNoSecret (inputFor reqCompleted) db₁ behOk).2.bookings =
      updateBookingRows db₁.bookings bookingRow₁.id (mappedStatus reqCompleted.status) (mergedResult reqCompleted) ∧
    lookupKey "transcript" (mergedResult reqCompleted) = some (JsonVal.str "They confirmed the table.") :=
  ⟨(relay_persists_status_and_merged_result hmacZero cfgNoSecret (inputFor reqCompleted)
      db₁ behOk bookingRow₁ rfl (by decide) rfl rfl rfl).1,
   (relay_persists_status_and_merged_result hmacZero cfgNoSecret (inputFor reqCompleted)
      db₁ behOk bookingRow₁ rfl (by decide) rfl rfl rfl).2.1,
   (relay_persists_status_and_merged_result hmacZero cfgNoSecret (inputFor reqCompleted)
      db₁ behOk bookingRow₁ rfl (by decide) rfl rfl rfl).2.2.2.2.2.1
     "They confirmed the table." rfl rfl⟩

/-- C3 (witness for the amended theorem). -/
theorem relay_insert_failure_reports_failure_witness :
    (relayPost hmacZero cfgNoSecret (inputFor reqCompleted) db₁ behInsertFail).1 = RelayResponse.serverError ∧
    (relayPost hmacZero cfgNoSecret (inputFor reqCompleted) db₁ behInsertFail).2.messages = db₁.messages ∧
    (relayPost hmacZero cfgNoSecret (inputFor reqCompleted) db₁ behInsertFail).2.bookings =
      updateBookingRows db₁.bookings bookingRow₁.id (mappedStatus reqCompleted.status) (mergedResult reqCompleted) :=
  relay_insert_failure_reports_failure hmacZero cfgNoSecret (inputFor reqCompleted)
    db₁ behInsertFail bookingRow₁ rfl (by decide) rfl rfl rfl

/-- C4 (counterexample): the phone number "+123456" matches the claimed
pattern `^\+[1-9]\d\x7b1,14\x7d$` but does not pass the phone validation
of the booking-start route: the route rejects it with the invalid-phone
validation error (its regex requires at least 8 digits in total) and
creates no booking row. -/
theorem phone_pattern_counterexample :
    isValidE164PhoneNumber "+123456" = true ∧
    phoneRegexRoute "+123456" = false ∧
    bookingStartPost reqPhone6 db₁ envOk startBehOk = (StartResponse.invalidPhone, db₁, 0) :=
  ⟨by decide, by decide, rfl⟩

/-- C4 (amended): the live route validates phone numbers against
`^\+[1-9]\d\x7b7,14\x7d$` (8 to 15 digits in total). Any phone number
failing that pattern — in particular any number failing the spec pattern
`^\+[1-9]\d\x7b1,14\x7d$` — is rejected with a validation error (HTTP
400) before any Booking row is created, and every phone number matching
the route pattern passes the phone-number validation; but not every
number matching the spec pattern does. -/
theorem phone_validation_characterization :
    (∀ (req : StartRequest) (db : DbState) (env : StartEnv) (beh : StartBehavior),
        phoneRegexRoute req.phoneNumber = false →
        isValidationReject (bookingStartPost req db env beh).1 = true ∧
        (bookingStartPost req db env beh).2.1 = db) ∧
    (∀ (req : StartRequest) (db : DbState) (env : StartEnv) (beh : StartBehavior),
        isValidE164PhoneNumber req.phoneNumber = false →
        isValidationReject (bookingStartPost req db env beh).1 = true ∧
        (bookingStartPost req db env beh).2.1 = db) ∧
    (∀ (req : StartRequest) (db : DbState) (env : StartEnv) (beh : StartBehavior),
        phoneRegexRoute req.phoneNumber = true →
        (bookingStartPost req db env beh).1 ≠ StartResponse.invalidPhone) ∧
    (∀ s, phoneRegexRoute s = true → isValidE164PhoneNumber s = true) := by
  have hA : ∀ (req : StartRequest) (db : DbState) (env : StartEnv) (beh : StartBehavior),
      phoneRegexRoute req.phoneNumber = false →
      isValidationReject (bookingStartPost req db env beh).1 = true ∧
      (bookingStartPost req db env beh).2.1 = db := by
    intro req db env beh h
    simp only [bookingStartPost, h]
    split_ifs <;> simp [isValidationReject]
  refine ⟨hA, ?_, ?_, phoneRegexRoute_imp_e164⟩
  · intro req db env beh h
    cases hR : phoneRegexRoute req.phoneNumber with
    | false => exact hA req db env beh hR
    | true => rw [phoneRegexRoute_imp_e164 _ hR] at h; cases h
  · intro req db env beh h
    simp only [bookingStartPost, h]
    repeat' split
    all_goals first
      | exact mcpContinue_fst_ne_invalidPhone _ _ _ _
      | simp_all

/-- C4 (witness for the amended theorem). -/
theorem phone_validation_characterization_witness :
    (isValidationReject (bookingStartPost reqPhone6 db₁ envOk startBehOk).1 = true ∧
      (bookingStartPost reqPhone6 db₁ envOk startBehOk).2.1 = db₁) ∧
    isValidE164PhoneNumber "+12025550100" = true :=
  ⟨phone_validation_characterization.1 reqPhone6 db₁ envOk startBehOk (by decide),
   phone_validation_characterization.2.2.2 "+12025550100" (by decide)⟩

/-- C5 (counterexample): in the orchestrator's `handleToolCalls`, a tool
call whose JSON arguments fail to parse aborts the whole batch — the
function throws and produces no output list at all, so the output of the
other, well-formed call in the batch is not produced or submitted (alone,
that call would have succeeded). -/
theorem tool_args_parse_failure_aborts_batch :
    handleToolCallsRoute parseStub runStartStub runStatusStub "c1" "u1" badBatch =
      Except.error "Unexpected token in JSON" ∧
    handleToolCallsRoute parseStub runStartStub runStatusStub "c1" "u1" goodBatch =
      Except.ok [{ tool_call_id := "call_b", output := JsonVal.null }] :=
  ⟨rfl, rfl⟩

/-- C5 (amended): in the orchestrator's `handleToolCalls`, a tool call
with an unrecognized name — or whose handler throws — yields an
error-shaped output for that call only, and outputs for every other call
are still produced; but a tool call whose JSON arguments fail to parse
throws outside the per-call `try` and aborts the whole batch with no
outputs submitted. Only the separate library helper in
`src/lib/openai.ts` isolates parse failures per call. -/
theorem tool_dispatch_isolation :
    (∀ (parse : String → Option JsonVal)
        (rs : JsonVal → String → String → Except String JsonVal)
        (rst : JsonVal → String → Except String JsonVal)
        (c u : String) (calls : List ToolCall),
        (∀ tc ∈ calls, (parse tc.argumentsRaw).isSome) →
        handleToolCallsRoute parse rs rst c u calls =
          Except.ok (calls.map fun tc =>
            { tool_call_id := tc.id,
              output := dispatchTool rs rst c u tc.name ((parse tc.argumentsRaw).getD JsonVal.null) })) ∧
    (∀ (rs : JsonVal → String → String → Except String JsonVal)
        (rst : JsonVal → String → Except String JsonVal)
        (c u name : String) (args : JsonVal),
        name ≠ "start_booking_call" → name ≠ "get_booking_status" →
        dispatchTool rs rst c u name args =
          JsonVal.obj [("error", JsonVal.str ("Unknown function: " ++ name))]) ∧
    (∀ (parse : String → Option JsonVal)
        (rs : JsonVal → String → String → Except String JsonVal)
        (rst : JsonVal → String → Except String JsonVal)
        (c u : String) (calls : List ToolCall) (tc : ToolCall),
        tc ∈ calls → parse tc.argumentsRaw = none →
        ∀ outs, handleToolCallsRoute parse rs rst c u calls ≠ Except.ok outs) ∧
    (∀ (parse : String → Option JsonVal)
        (handler : String → JsonVal → Except String JsonVal) (calls : List ToolCall),
        handleToolCallsLib parse handler calls = calls.map fun tc =>
          { tool_call_id := tc.id,
            output :=
              match parse tc.argumentsRaw with
              | none => JsonVal.obj [("error", JsonVal.str "Failed to parse function arguments")]
              | some args =>
                match handler tc.name args with
                | Except.ok v => v
                | Except.error e => JsonVal.obj [("error", JsonVal.str e)] }) ∧
    (∀ (parse : String → Option JsonVal)
        (handler : String → JsonVal → Except String JsonVal) (calls : List ToolCall),
        (handleToolCallsLib parse handler calls).length = calls.length) := by
  refine ⟨?_, ?_, ?_, ?_, ?_⟩
  · intro parse rs rst c u calls
    induction calls with
    | nil => intro _; rfl
    | cons tc rest ih =>
      intro h
      obtain ⟨a, ha⟩ := Option.isSome_iff_exists.mp (h tc (List.mem_cons_self tc rest))
      have hrest := ih fun x hx => h x (List.mem_cons_of_mem _ hx)
      simp [handleToolCallsRoute, ha, hrest]
  · intro rs rst c u name args h1 h2
    unfold dispatchTool
    split <;> simp_all
  · intro parse rs rst c u calls
    induction calls with
    | nil => intro tc h; cases h
    | cons hd rest ih =>
      intro tc hmem hparse outs heq
      rcases List.mem_cons.mp hmem with h | h
      · subst h
        simp [handleToolCallsRoute, hparse] at heq
      · rcases hp : parse hd.argumentsRaw with _ | a
        · simp [handleToolCallsRoute, hp] at heq
        · rcases hr : handleToolCallsRoute parse rs rst c u rest with e | outs₂
          · simp [handleToolCallsRoute, hp, hr] at heq
          · exact ih tc h hparse outs₂ hr
  · exact handleToolCallsLib_eq_map
  · intro parse handler calls
    rw [handleToolCallsLib_eq_map]
    exact List.length_map _ _

/-- C5 (witness for the amended theorem). -/
theorem tool_dispatch_isolation_witness :
    handleToolCallsRoute parseStub runStartStub runStatusStub "c1" "u1" goodBatch =
      Except.ok (goodBatch.map fun tc =>
        { tool_call_id := tc.id,
          output := dispatchTool runStartStub runStatusStub "c1" "u1" tc.name
            ((parseStub tc.argumentsRaw).getD JsonVal.null) }) ∧
    dispatchTool runStartStub runStatusStub "c1" "u1" "frobnicate" JsonVal.null =
      JsonVal.obj [("error", JsonVal.str ("Unknown function: " ++ "frobnicate"))] ∧
    handleToolCallsRoute parseStub runStartStub runStatusStub "c1" "u1" badBatch ≠
      Except.ok [] :=
  ⟨tool_dispatch_isolation.1 parseStub runStartStub runStatusStub "c1" "u1" goodBatch (by decide),
   tool_dispatch_isolation.2.1 runStartStub runStatusStub "c1" "u1" "frobnicate" JsonVal.null
     (by decide) (by decide),
   tool_dispatch_isolation.2.2.1 parseStub runStartStub runStatusStub "c1" "u1" badBatch
     { id := "call_a", name := "start_booking_call", argumentsRaw := "oops" }
     (by decide) rfl []⟩

/-- C7 (counterexample): the outcome status `voicemail` does not select
a template of its own: the `switch` of the relay has no `voicemail`
case, so the synthesized message is exactly the generic "status: X"
fallback (and the supplied transcript is ignored). -/
theorem voicemail_uses_generic_template :
    messageContentFor reqVoicemail bookingRow₁ =
      genericTemplate (some "voicemail") bookingRow₁.details ∧
    messageContentFor reqVoicemail bookingRow₁ =
      "ℹ️ The call to Mario ended with status: voicemail." :=
  ⟨rfl, rfl⟩

/-- C7 (amended): exactly four statuses — completed, failed, busy,
no-answer — select their own literal message templates, pairwise
distinct (for every booking) and distinct from the generic fallback;
`voicemail` and every other status value fall back to the generic
"status: X" template. -/
theorem outcome_message_templates :
    ∀ (req : CallbackRequest) (b : BookingRow),
      (req.status = some "completed" → messageContentFor req b = completedTemplate req b.details) ∧
      (req.status = some "failed" → messageContentFor req b = failedTemplate req b.details) ∧
      (req.status = some "busy" → messageContentFor req b = busyTemplate b.details) ∧
      (req.status = some "no-answer" → messageContentFor req b = noAnswerTemplate b.details) ∧
      (req.status ≠ some "completed" → req.status ≠ some "failed" →
        req.status ≠ some "busy" → req.status ≠ some "no-answer" →
        messageContentFor req b = genericTemplate req.status b.details) ∧
      completedTemplate req b.details ≠ failedTemplate req b.details ∧
      completedTemplate req b.details ≠ busyTemplate b.details ∧
      completedTemplate req b.details ≠ noAnswerTemplate b.details ∧
      completedTemplate req b.details ≠ genericTemplate req.status b.details ∧
      failedTemplate req b.details ≠ busyTemplate b.details ∧
      failedTemplate req b.details ≠ noAnswerTemplate b.details ∧
      failedTemplate req b.details ≠ genericTemplate req.status b.details ∧
      busyTemplate b.details ≠ noAnswerTemplate b.details ∧
      busyTemplate b.details ≠ genericTemplate req.status b.details ∧
      noAnswerTemplate b.details ≠ genericTemplate req.status b.details := by
  intro req b
  have hC0 : strCharAt (completedTemplate req b.details) 0 = some '✅' := by
    unfold completedTemplate
    rw [strCharAt_append_left _ _ _ (by decide)]
    decide
  have hF0 : strCharAt (failedTemplate req b.details) 0 = some '❌' := by
    unfold failedTemplate
    rw [strCharAt_append_left _ _ _ (by decide)]
    decide
  have hB0 : strCharAt (busyTemplate b.details) 0 = some '📵' := by
    unfold busyTemplate
    rw [strCharAt_append_left _ _ _ (by decide)]
    decide
  have hN0 : strCharAt (noAnswerTemplate b.details) 0 = some '📵' := by
    unfold noAnswerTemplate
    rw [strCharAt_append_left _ _ _ (by decide)]
    decide
  have hG0 : strCharAt (genericTemplate req.status b.details) 0 = some 'ℹ' := by
    unfold genericTemplate
    rw [strCharAt_append_left _ _ _ (by decide)]
    decide
  have hB5 : strCharAt (busyTemplate b.details) 5 = some ' ' := by
    unfold busyTemplate
    rw [strCharAt_append_left _ _ _ (by decide)]
    decide
  have hN5 : strCharAt (noAnswerTemplate b.details) 5 = some 'r' := by
    unfold noAnswerTemplate
    rw [strCharAt_append_left _ _ _ (by decide)]
    decide
  refine ⟨?_, ?_, ?_, ?_, ?_, ?_, ?_, ?_, ?_, ?_, ?_, ?_, ?_, ?_, ?_⟩
  · intro h; simp [messageContentFor, h]
  · intro h; simp [messageContentFor, h]
  · intro h; simp [messageContentFor, h]
  · intro h; simp [messageContentFor, h]
  · intro h1 h2 h3 h4
    unfold messageContentFor
    split <;> simp_all
  · exact ne_of_strCharAt_ne _ _ 0 (by rw [hC0, hF0]; decide)
  · exact ne_of_strCharAt_ne _ _ 0 (by rw [hC0, hB0]; decide)
  · exact ne_of_strCharAt_ne _ _ 0 (by rw [hC0, hN0]; decide)
  · exact ne_of_strCharAt_ne _ _ 0 (by rw [hC0, hG0]; decide)
  · exact ne_of_strCharAt_ne _ _ 0 (by rw [hF0, hB0]; decide)
  · exact ne_of_strCharAt_ne _ _ 0 (by rw [hF0, hN0]; decide)
  · exact ne_of_strCharAt_ne _ _ 0 (by rw [hF0, hG0]; decide)
  · exact ne_of_strCharAt_ne _ _ 5 (by rw [hB5, hN5]; decide)
  · exact ne_of_strCharAt_ne _ _ 0 (by rw [hB0, hG0]; decide)
  · exact ne_of_strCharAt_ne _ _ 0 (by rw [hN0, hG0]; decide)

/-- C7 (witness for the amended theorem). -/
theorem outcome_message_templates_witness :
    messageContentFor reqVoicemail bookingRow₁ =
      genericTemplate (some "voicemail") bookingRow₁.details ∧
    busyTemplate bookingRow₁.details ≠ noAnswerTemplate bookingRow₁.details := by
  obtain ⟨h1, h2, h3, h4, h5, h6, h7, h8, h9, h10, h11, h12, h13, h14, h15⟩ :=
    outcome_message_templates reqVoicemail bookingRow₁
  exact ⟨h5 (by decide) (by decide) (by decide) (by decide), h13⟩

/-- C8: every wait in the request handlers is bounded. The
orchestrator's polling loop stops within 60 attempts (one one-second
sleep each, the documented 60-second budget) for every status stream;
the library's wall-clock-bounded loop either returns with at most
`maxWaitMs + 1000` elapsed milliseconds or throws its timeout error —
in particular it throws, rather than hangs, on every stream of
non-terminal statuses; and the booking-start handler never waits more
than 30000 ms on the Call-Placing Service, whose request is aborted at
the 30-second timer when no response has arrived. -/
theorem bounded_waits :
    (∀ (stream : Nat → RunStatus) (st : RunStatus) (a : Nat),
        (pollLoop stream st a).2 ≤ max a 60) ∧
    (∀ (stream : Nat → RunStatus) (m : Nat) (st : RunStatus) (e : Nat)
        (r : RunStatus × Nat),
        clockPoll stream m st e = Except.ok r → r.2 ≤ max e (m + 1000)) ∧
    (∀ (stream : Nat → RunStatus) (m : Nat) (st : RunStatus) (e : Nat),
        (∀ n, isNonTerminal (stream n) = true) → isNonTerminal st = true →
        clockPoll stream m st e = Except.error "Assistant run timed out") ∧
    (∀ (req : StartRequest) (db : DbState) (env : StartEnv) (beh : StartBehavior),
        (bookingStartPost req db env beh).2.2 ≤ 30000) ∧
    (∀ rep, fetchWithTimeout 30000 none rep = (FetchOutcome.aborted, 30000)) := by
  refine ⟨?_, ?_, ?_, bookingStart_wait_le, fun rep => rfl⟩
  · intro stream st a
    exact pollLoop_le_aux stream (60 - a) st a (Nat.le_refl _)
  · intro stream m st e r h
    exact clockPoll_ok_le_aux stream m (m + 1000 - e) st e (Nat.le_refl _) r h
  · intro stream m st e hstream hnt
    exact clockPoll_timeout_aux stream m hstream (m + 1000 - e) st e (Nat.le_refl _) hnt

/-- C8 (witness). -/
theorem bounded_waits_witness :
    (pollLoop streamQueued RunStatus.queued 0).2 ≤ max 0 60 ∧
    clockPoll streamQueued 60000 RunStatus.queued 0 =
      Except.error "Assistant run timed out" ∧
    (bookingStartPost reqPhone6 db₁ envOk startBehOk).2.2 ≤ 30000 :=
  ⟨bounded_waits.1 streamQueued RunStatus.queued 0,
   bounded_waits.2.2.1 streamQueued 60000 RunStatus.queued 0 (fun _ => rfl) rfl,
   bounded_waits.2.2.2.1 reqPhone6 db₁ envOk startBehOk⟩

/-- C10: the send-message handler performs no ownership check of the
chat against the user: for any two requests identical up to their
(non-empty) `userId`, the database operations up to tool dispatch — the
persisted user Message row (chat_id, role, content), the chat/thread
lookup, and the thread-id write — are identical. `userId` only reaches
the tool-call handlers. -/
theorem send_message_userId_noninterference :
    ∀ (ac : Bool) (c m u₁ u₂ : String) (et : Option String) (nt : String),
      u₁ ≠ "" → u₂ ≠ "" →
      sendMessageDbOps ac { chatId := c, userId := u₁, message := m } et nt =
        sendMessageDbOps ac { chatId := c, userId := u₂, message := m } et nt := by
  intro ac c m u₁ u₂ et nt h₁ h₂
  simp [sendMessageDbOps, h₁, h₂]

/-- C10 (witness). -/
theorem send_message_userId_noninterference_witness :
    sendMessageDbOps true { chatId := "c1", userId := "u1", message := "hi" } none "th1" =
      sendMessageDbOps true { chatId := "c1", userId := "u2", message := "hi" } none "th1" :=
  send_message_userId_noninterference true "c1" "hi" "u1" "u2" none "th1"
    (by decide) (by decide)

end Sysist
